import Mathlib

/-!
Shallow embedding of the localtunnel client (localtunnel.go): the tunnel
session lifecycle (`NewTunnel`, `OpenAs`, `Close`, `Closing`, accessors),
the per-connection dial/relay state machine (`conn.open`, `conn.pipe`) and
the byte-relay helper (`chanFromConn`), together with theorems checking the
specification's claims about them.

External effects are parameters of the embedding: the HTTP handshake is a
function from the request URL to its outcome, dial outcomes and socket
reads are inputs, and the mutex is recorded as a trace of lock events.
-/

namespace LocalTunnel

/-- State of the `closeCh` Go channel once it has been allocated by
`make(chan struct\x7b\x7d)`: still open, or closed. A `nil` channel (the zero
value of the field) is modelled by `Option.none` at the use sites. -/
inductive ChanState
  | opened
  | closed
deriving DecidableEq, Repr

/-- Runtime faults that `close(ch)` raises in Go: closing a nil channel and
closing an already-closed channel both panic. -/
inductive Panic
  | closeOfNilChannel
  | closeOfClosedChannel
deriving DecidableEq, Repr

/-- Mutex events emitted by an operation on the Tunnel's lock `t.m`;
recorded so that theorems can state which operations lock. -/
inductive Event
  | lock
  | unlock
deriving DecidableEq, Repr

/-- `Client`: holds only the broker endpoint. -/
structure Client where
  endPoint : String
deriving DecidableEq, Repr

/-- The `Tunnel` struct. `closeCh = none` models the nil channel of a
freshly constructed Tunnel; `some s` models an allocated channel in state
`s`. The remaining fields are the Go fields verbatim. -/
structure Tunnel where
  c : Client
  closeCh : Option ChanState
  remoteHost : String
  remotePort : Int
  localHost : String
  localPort : Int
  subdomain : String
  url : String
  maxConn : Int
deriving DecidableEq, Repr

/-- `Client.NewTunnel`: `&Tunnel\x7bc: c, localHost: host, localPort: port\x7d` —
every other field takes its Go zero value, the channel field is nil. -/
def Client.NewTunnel (c : Client) (host : String) (port : Int) : Tunnel :=
  { c := c, closeCh := none, remoteHost := "", remotePort := 0,
    localHost := host, localPort := port, subdomain := "", url := "",
    maxConn := 0 }

/-- `Client.NewLocalTunnel`: `c.NewTunnel("localhost", port)`. -/
def Client.NewLocalTunnel (c : Client) (port : Int) : Tunnel :=
  c.NewTunnel "localhost" port

/-- `NewClient`: stores the endpoint. -/
def NewClient (url : String) : Client :=
  { endPoint := url }

/-- Accessor `RemoteHost`: returns the field directly; the empty trace
records that no lock event is performed by its body. -/
def Tunnel.RemoteHost (t : Tunnel) : List Event × String :=
  ([], t.remoteHost)

/-- Accessor `RemotePort`. -/
def Tunnel.RemotePort (t : Tunnel) : List Event × Int :=
  ([], t.remotePort)

/-- Accessor `LocalHost`. -/
def Tunnel.LocalHost (t : Tunnel) : List Event × String :=
  ([], t.localHost)

/-- Accessor `LocalPort`. -/
def Tunnel.LocalPort (t : Tunnel) : List Event × Int :=
  ([], t.localPort)

/-- Accessor `Subdomain`. -/
def Tunnel.Subdomain (t : Tunnel) : List Event × String :=
  ([], t.subdomain)

/-- Accessor `URL`. -/
def Tunnel.URL (t : Tunnel) : List Event × String :=
  ([], t.url)

/-- Accessor `MaxConn`. -/
def Tunnel.MaxConn (t : Tunnel) : List Event × Int :=
  ([], t.maxConn)

/-- Result of `Tunnel.Close`: the mutex trace, the post-state (the five
field resets at lines 119-123 happen before `close(t.closeCh)` at line
124, so they are applied even when the close faults), and the panic raised
by `close(t.closeCh)`, if any. -/
structure CloseResult where
  events : List Event
  state : Tunnel
  panic : Option Panic
deriving DecidableEq, Repr

/-- `Tunnel.Close`: lock, reset `remoteHost`, `remotePort`, `maxConn`,
`subdomain`, `url`, then `close(t.closeCh)` — which panics when the channel
is nil or already closed; there is no guard flag in the source. -/
def Tunnel.Close (t : Tunnel) : CloseResult :=
  match t.closeCh with
  | none =>
      { events := [Event.lock, Event.unlock],
        state := { t with remoteHost := "", remotePort := 0, maxConn := 0,
                          subdomain := "", url := "" },
        panic := some Panic.closeOfNilChannel }
  | some ChanState.closed =>
      { events := [Event.lock, Event.unlock],
        state := { t with remoteHost := "", remotePort := 0, maxConn := 0,
                          subdomain := "", url := "" },
        panic := some Panic.closeOfClosedChannel }
  | some ChanState.opened =>
      { events := [Event.lock, Event.unlock],
        state := { t with remoteHost := "", remotePort := 0, maxConn := 0,
                          subdomain := "", url := "",
                          closeCh := some ChanState.closed },
        panic := none }

/-- `Tunnel.Closing`: returns `t.closeCh` as is (possibly the nil channel). -/
def Tunnel.Closing (t : Tunnel) : Option ChanState :=
  t.closeCh

/-- Whether a receive on the close channel can complete: a receive on a nil
channel blocks forever, nothing is ever sent on an open `closeCh`, and a
receive on a closed channel completes immediately. -/
def recvReady : Option ChanState → Bool
  | none => false
  | some ChanState.opened => false
  | some ChanState.closed => true

/-- The JSON body of the registration response (each field is optional in
the schema; an absent field decodes to its zero value). -/
structure HandshakeBody where
  id : String
  url : String
  port : Int
  max_conn_count : Int
deriving DecidableEq, Repr

/-- A successful `http.Get` + JSON decode: the resolved host
(`resp.Request.URL.Host`, after redirects) and the decoded body. -/
structure HandshakeOutcome where
  resolvedHost : String
  body : HandshakeBody
deriving DecidableEq, Repr

/-- Handshake failures: transport error from `http.Get`, or a JSON decode
error from `Decoder.Decode`. -/
inductive HttpError
  | transport (msg : String)
  | decode (msg : String)
deriving DecidableEq, Repr

/-- The HTTP environment: what GETting a URL (and decoding the body) yields. -/
def Http : Type :=
  String → Except HttpError HandshakeOutcome

/-- `fmt.Sprintf(t.c.endPoint+"/%s", subdomain)`. -/
def requestURL (endPoint subdomain : String) : String :=
  endPoint ++ "/" ++ subdomain

/-- `Tunnel.setup`: GET the request URL; on transport or decode error
return the error with no field assigned; on success assign the five
handshake-derived fields from the response. -/
def Tunnel.setup (t : Tunnel) (subdomain : String) (http : Http) :
    Except HttpError Tunnel :=
  match http (requestURL t.c.endPoint subdomain) with
  | Except.error e => Except.error e
  | Except.ok o =>
      Except.ok { t with remoteHost := o.resolvedHost,
                         remotePort := o.body.port,
                         maxConn := o.body.max_conn_count,
                         subdomain := o.body.id,
                         url := o.body.url }

/-- A spawned connection task: `&conn\x7bt: t\x7d`, not yet dialed. -/
structure Conn where
  t : Tunnel
deriving DecidableEq, Repr

/-- `Tunnel.establish`: `for i := 0; i < t.MaxConn(); i++` spawns one fresh
`conn` per iteration (zero iterations when `maxConn ≤ 0`). -/
def Tunnel.establish (t : Tunnel) : List Conn :=
  (List.range (t.MaxConn).2.toNat).map (fun _ => { t := t })

/-- Result of `Tunnel.OpenAs`: the mutex trace, the post-state, and either
the handshake error or the list of spawned (not yet run) connections. -/
structure OpenResult where
  events : List Event
  state : Tunnel
  result : Except HttpError (List Conn)

/-- The connections an `OpenAs` spawned (none when it returned an error). -/
def OpenResult.spawned (r : OpenResult) : List Conn :=
  match r.result with
  | Except.ok conns => conns
  | Except.error _ => []

/-- `Tunnel.OpenAs`: lock; run `setup`; on error return it (the state is
untouched); on success allocate a fresh open `closeCh` and spawn
`establish`'s connections, returning nil. -/
def Tunnel.OpenAs (t : Tunnel) (subdomain : String) (http : Http) :
    OpenResult :=
  match t.setup subdomain http with
  | Except.error e =>
      { events := [Event.lock, Event.unlock], state := t,
        result := Except.error e }
  | Except.ok t1 =>
      { events := [Event.lock, Event.unlock],
        state := { t1 with closeCh := some ChanState.opened },
        result := Except.ok ({ t1 with
          closeCh := some ChanState.opened : Tunnel }.establish) }

/-- `Tunnel.Open`: `return t.OpenAs("?new")`. -/
def Tunnel.Open (t : Tunnel) (http : Http) : OpenResult :=
  t.OpenAs "?new" http

/-- Outcome of one `net.Dial` call. -/
inductive DialResult
  | ok
  | err (msg : String)
deriving DecidableEq, Repr

/-- The observable actions of `conn.open`. -/
inductive ConnAction
  | dialRemote
  | dialLocal
  | tunnelClose
  | enterPipe
deriving DecidableEq, Repr

/-- `conn.open`: dial the remote socket; on failure call `c.t.Close()` and
return; else dial the local socket; on failure call `c.t.Close()` and
return; else run `c.pipe()`. -/
def connOpen (remoteDial localDial : DialResult) : List ConnAction :=
  match remoteDial with
  | DialResult.err _ => [ConnAction.dialRemote, ConnAction.tunnelClose]
  | DialResult.ok =>
      match localDial with
      | DialResult.err _ =>
          [ConnAction.dialRemote, ConnAction.dialLocal,
           ConnAction.tunnelClose]
      | DialResult.ok =>
          [ConnAction.dialRemote, ConnAction.dialLocal,
           ConnAction.enterPipe]

/-- `Open`'s return value paired with each spawned connection's actions,
given the dial outcomes the environment supplies to each connection slot.
The returned error is produced before any connection runs. -/
def openAndDial (t : Tunnel) (subdomain : String) (http : Http)
    (dials : Nat → DialResult × DialResult) :
    Except HttpError Unit × List (List ConnAction) :=
  match (t.OpenAs subdomain http).result with
  | Except.error e => (Except.error e, [])
  | Except.ok conns =>
      (Except.ok (),
       (List.range conns.length).map
         (fun i => connOpen (dials i).1 (dials i).2))

/-- The four cases of the `select` in `conn.pipe`. -/
inductive PipeCase
  | remoteChunk (b : List Nat)
  | localChunk (b : List Nat)
  | readError
  | closeSignal
deriving DecidableEq, Repr

/-- What the body of each selected case does: write the chunk and loop, or
`c.close(); c.open(); return` (redial into a replacement connection), or
`c.close(); return`. -/
inductive PipeAction
  | writeLocal (b : List Nat)
  | writeRemote (b : List Nat)
  | closeSocketsAndRedial
  | closeSocketsAndStop
deriving DecidableEq, Repr

/-- The case bodies of the `select` in `conn.pipe`, exactly as written:
the `errorCh` case unconditionally closes both sockets and re-runs
`c.open()`; only the `closeCh` case terminates without replacement. -/
def Conn.pipeStep : PipeCase → PipeAction
  | PipeCase.remoteChunk b => PipeAction.writeLocal b
  | PipeCase.localChunk b => PipeAction.writeRemote b
  | PipeCase.readError => PipeAction.closeSocketsAndRedial
  | PipeCase.closeSignal => PipeAction.closeSocketsAndStop

/-- Pending communications visible to the `select` of `conn.pipe`:
whether `t.closeCh` is closed, whether a relay goroutine is blocked
sending on `errorCh`, and any chunk pending on `remoteCh`/`localCh`. -/
structure PipeEnv where
  closeFired : Bool
  errorPending : Bool
  remotePending : Option (List Nat)
  localPending : Option (List Nat)
deriving DecidableEq, Repr

/-- Which `select` cases are ready in a given environment; the `select`
statement may execute the body of any ready case. -/
def caseReady (env : PipeEnv) : PipeCase → Bool
  | PipeCase.remoteChunk b => env.remotePending == some b
  | PipeCase.localChunk b => env.localPending == some b
  | PipeCase.readError => env.errorPending
  | PipeCase.closeSignal => env.closeFired

/-- One `conn.Read(b)` outcome: the bytes the read placed in the buffer
(`b[:n]`, so `n = data.length`) and the accompanying error, if any. -/
structure ReadResult where
  data : List Nat
  err : Option String
deriving DecidableEq, Repr

/-- `make([]byte, 1024)`: the buffer size of `chanFromConn`'s reader. -/
def bufSize : Nat := 1024

/-- The reader loop of `chanFromConn` over a stream of read outcomes:
if `n > 0`, copy `b[:n]` into a fresh buffer and send it; if `err != nil`,
send the error and break. Returns the forwarded chunks and the reported
errors in order. -/
def chanFromConn : List ReadResult → List (List Nat) × List String
  | [] => ([], [])
  | r :: rs =>
      match r.err with
      | some e => ((if r.data.length > 0 then [r.data] else []), [e])
      | none =>
          ((if r.data.length > 0 then [r.data] else [])
             ++ (chanFromConn rs).1,
           (chanFromConn rs).2)

/-! ### Concrete fixtures used by witnesses and counterexamples -/

/-- A concrete freshly constructed tunnel. -/
def tun0 : Tunnel :=
  (NewClient "https://localtunnel.me").NewTunnel "localhost" 8000

/-- An environment whose handshake always succeeds with `max_conn_count = 2`. -/
def httpOK : Http := fun _ =>
  Except.ok { resolvedHost := "localtunnel.me",
              body := { id := "abc123",
                        url := "https://abc123.localtunnel.me",
                        port := 7000, max_conn_count := 2 } }

/-- An environment whose handshake always succeeds with `max_conn_count = 0`. -/
def httpOK0 : Http := fun _ =>
  Except.ok { resolvedHost := "localtunnel.me",
              body := { id := "abc123",
                        url := "https://abc123.localtunnel.me",
                        port := 7000, max_conn_count := 0 } }

/-- An environment whose handshake always fails with a transport error. -/
def httpFail : Http := fun _ =>
  Except.error (HttpError.transport "connection refused")

/-- A pipe environment in which the close signal has fired while a read
error is pending. -/
def pipeEnvClosedWithError : PipeEnv :=
  { closeFired := true, errorPending := true,
    remotePending := none, localPending := none }

/-- A pipe environment in which the close signal has fired while a chunk
from the remote socket is pending. -/
def pipeEnvClosedWithChunk : PipeEnv :=
  { closeFired := true, errorPending := false,
    remotePending := some [7, 7], localPending := none }

/-! ### Claims -/

/-- Claim C8: `Open()` is `OpenAs("?new")`: same handshake request
(`GET \x7bendpoint\x7d/?new`), same resulting state, same error-or-success. -/
theorem open_is_openAs_new (t : Tunnel) (http : Http) :
    t.Open http = t.OpenAs "?new" http ∧
    requestURL t.c.endPoint "?new" = t.c.endPoint ++ "/?new" := by
  refine ⟨rfl, ?_⟩
  have h : ("/" : String) ++ "?new" = "/?new" := rfl
  calc t.c.endPoint ++ "/" ++ "?new"
      = t.c.endPoint ++ ("/" ++ "?new") := by
        apply String.ext
        simp [String.data_append, List.append_assoc]
    _ = t.c.endPoint ++ "/?new" := by rw [h]

/-- Claim C1 (code bug): there is no closed-flag guard in `Close`. After a
successful `Open`, the first `Close` succeeds but a second `Close` reaches
`close(t.closeCh)` with the channel already closed and panics. -/
theorem close_after_close_panics :
    ((tun0.OpenAs "?new" httpOK).state.Close).panic = none ∧
    (((tun0.OpenAs "?new" httpOK).state.Close).state.Close).panic
      = some Panic.closeOfClosedChannel := by
  exact ⟨rfl, rfl⟩

/-- Claim C2 (code bug): once the close signal has fired, the `select` of
`conn.pipe` does not give the close case priority: with a read error
pending concurrently, both the `errorCh` case and the `closeCh` case are
ready, and the `errorCh` case's body closes the sockets and re-runs
`c.open()` — the connection self-replaces after close. A pending chunk can
likewise still be selected and relayed after close. -/
theorem pipe_redials_despite_close :
    caseReady pipeEnvClosedWithError PipeCase.readError = true ∧
    caseReady pipeEnvClosedWithError PipeCase.closeSignal = true ∧
    Conn.pipeStep PipeCase.readError = PipeAction.closeSocketsAndRedial ∧
    caseReady pipeEnvClosedWithChunk (PipeCase.remoteChunk [7, 7]) = true ∧
    Conn.pipeStep (PipeCase.remoteChunk [7, 7])
      = PipeAction.writeLocal [7, 7] := by
  exact ⟨rfl, rfl, rfl, rfl, rfl⟩

/-- Claim C7: the five handshake-derived fields are all zero/empty on a
freshly constructed Tunnel, and `Close` resets exactly those five fields
while leaving `localHost` and `localPort` at their construction values. -/
theorem handshake_fields_zero_outside_session (c : Client) (host : String)
    (port : Int) (t : Tunnel) :
    ((c.NewTunnel host port).remoteHost = "" ∧
     (c.NewTunnel host port).remotePort = 0 ∧
     (c.NewTunnel host port).maxConn = 0 ∧
     (c.NewTunnel host port).subdomain = "" ∧
     (c.NewTunnel host port).url = "" ∧
     (c.NewTunnel host port).localHost = host ∧
     (c.NewTunnel host port).localPort = port) ∧
    ((t.Close).state.remoteHost = "" ∧
     (t.Close).state.remotePort = 0 ∧
     (t.Close).state.maxConn = 0 ∧
     (t.Close).state.subdomain = "" ∧
     (t.Close).state.url = "" ∧
     (t.Close).state.localHost = t.localHost ∧
     (t.Close).state.localPort = t.localPort) := by
  refine ⟨⟨rfl, rfl, rfl, rfl, rfl, rfl, rfl⟩, ?_⟩
  cases hc : t.closeCh with
  | none => simp [Tunnel.Close, hc]
  | some st => cases st <;> simp [Tunnel.Close, hc]

/-- Claim C10: before any successful `Open`, `closeCh` is the nil channel:
`Close` in that state panics closing a nil channel, `Closing` returns the
nil channel on which a receive never completes; and every successful
`OpenAs` leaves a freshly allocated open close channel. -/
theorem nil_close_channel_before_open (c : Client) (host : String)
    (port : Int) :
    (c.NewTunnel host port).closeCh = none ∧
    ((c.NewTunnel host port).Close).panic = some Panic.closeOfNilChannel ∧
    (c.NewTunnel host port).Closing = none ∧
    recvReady ((c.NewTunnel host port).Closing) = false ∧
    (∀ (t : Tunnel) (s : String) (o : HandshakeOutcome),
       (t.OpenAs s (fun _ => Except.ok o)).state.closeCh
         = some ChanState.opened) := by
  refine ⟨rfl, rfl, rfl, rfl, ?_⟩
  intro t s o
  simp [Tunnel.OpenAs, Tunnel.setup]

/-- Claim C3: if the handshake GET fails (transport or decode error),
`OpenAs` returns that error unchanged, spawns no connections and leaves
the Tunnel's state exactly as it was — in particular the handshake-derived
fields stay zero/empty when they were zero/empty. -/
theorem openAs_handshake_error_no_partial_state (t : Tunnel) (s : String)
    (e : HttpError) (http : Http)
    (h : http (requestURL t.c.endPoint s) = Except.error e) :
    (t.OpenAs s http).state = t ∧
    (t.OpenAs s http).result = Except.error e ∧
    (t.OpenAs s http).spawned = [] := by
  simp [Tunnel.OpenAs, Tunnel.setup, h, OpenResult.spawned]

/-- Witness for C3 at a concrete tunnel and failing environment. -/
theorem openAs_handshake_error_no_partial_state_witness :
    httpFail (requestURL tun0.c.endPoint "?new")
      = Except.error (HttpError.transport "connection refused") ∧
    ((tun0.OpenAs "?new" httpFail).state = tun0 ∧
     (tun0.OpenAs "?new" httpFail).result
       = Except.error (HttpError.transport "connection refused") ∧
     (tun0.OpenAs "?new" httpFail).spawned = []) :=
  ⟨rfl, openAs_handshake_error_no_partial_state tun0 "?new"
          (HttpError.transport "connection refused") httpFail rfl⟩

/-- Claim C9 counterexample: the `URL` accessor of a concrete tunnel
performs no mutex operation at all — its event trace is empty, so it does
not acquire the Tunnel's lock as the claim states. -/
theorem url_accessor_no_lock_cex :
    (tun0.URL).1 = ([] : List Event) ∧
    decide (Event.lock ∈ (tun0.URL).1) = false := by
  exact ⟨rfl, rfl⟩

/-- Claim C9 amended: the read-only accessors read their fields directly
without acquiring the Tunnel's lock (their mutex traces are empty); only
the mutators `OpenAs` (hence `Open`) and `Close` lock and unlock. -/
theorem accessors_read_without_lock (t : Tunnel) (s : String)
    (http : Http) :
    (t.URL).1 = [] ∧ (t.Subdomain).1 = [] ∧ (t.RemoteHost).1 = [] ∧
    (t.RemotePort).1 = [] ∧ (t.LocalHost).1 = [] ∧ (t.LocalPort).1 = [] ∧
    (t.MaxConn).1 = [] ∧
    (t.URL).2 = t.url ∧ (t.Subdomain).2 = t.subdomain ∧
    (t.RemoteHost).2 = t.remoteHost ∧ (t.RemotePort).2 = t.remotePort ∧
    (t.LocalHost).2 = t.localHost ∧ (t.LocalPort).2 = t.localPort ∧
    (t.MaxConn).2 = t.maxConn ∧
    (t.OpenAs s http).events = [Event.lock, Event.unlock] ∧
    (t.Close).events = [Event.lock, Event.unlock] := by
  refine ⟨rfl, rfl, rfl, rfl, rfl, rfl, rfl, rfl, rfl, rfl, rfl, rfl, rfl,
          rfl, ?_, ?_⟩
  · unfold Tunnel.OpenAs
    cases t.setup s http <;> rfl
  · unfold Tunnel.Close
    cases hc : t.closeCh with
    | none => rfl
    | some st => cases st <;> rfl

/-- Claim C5: if dialing the remote socket fails, or it succeeds and
dialing the local socket fails, then `conn.open` invokes the Tunnel's
`Close` and terminates without ever entering the relay (`pipe`); and the
value returned by `Open`/`OpenAs` is independent of every dial outcome, so
the dial error is never surfaced through it. -/
theorem dial_failure_closes_tunnel (rd ld : DialResult)
    (h : (∃ m, rd = DialResult.err m) ∨ (∃ m, ld = DialResult.err m)) :
    (ConnAction.tunnelClose ∈ connOpen rd ld ∧
     ConnAction.enterPipe ∉ connOpen rd ld) ∧
    (∀ (t : Tunnel) (s : String) (http : Http)
       (d d' : Nat → DialResult × DialResult),
       (openAndDial t s http d).1 = (openAndDial t s http d').1) := by
  constructor
  · cases rd with
    | err m => simp [connOpen]
    | ok =>
        cases ld with
        | err m => simp [connOpen]
        | ok =>
            rcases h with ⟨m, hm⟩ | ⟨m, hm⟩ <;> simp at hm
  · intro t s http d d'
    unfold openAndDial
    cases ht : (t.OpenAs s http).result <;> simp

/-- Witness for C5: a failing remote dial. -/
theorem dial_failure_closes_tunnel_witness :
    ((∃ m, DialResult.err "connection refused" = DialResult.err m) ∨
     (∃ m, DialResult.ok = DialResult.err m)) ∧
    ((ConnAction.tunnelClose
        ∈ connOpen (DialResult.err "connection refused") DialResult.ok ∧
      ConnAction.enterPipe
        ∉ connOpen (DialResult.err "connection refused") DialResult.ok) ∧
     (∀ (t : Tunnel) (s : String) (http : Http)
        (d d' : Nat → DialResult × DialResult),
        (openAndDial t s http d).1 = (openAndDial t s http d').1)) :=
  ⟨Or.inl ⟨"connection refused", rfl⟩,
   dial_failure_closes_tunnel (DialResult.err "connection refused")
     DialResult.ok (Or.inl ⟨"connection refused", rfl⟩)⟩

/-- Claim C6: on a successful handshake returning `max_conn_count = k`,
`OpenAs` spawns exactly `k` connections and returns success immediately:
its return value does not depend on any dial outcome. For `k = 0` no
connection is spawned and no connection ever dials, while `URL()` reports
the url of the handshake response. -/
theorem openAs_spawns_exactly_maxConn (t : Tunnel) (s : String)
    (o : HandshakeOutcome) (http : Http)
    (h : http (requestURL t.c.endPoint s) = Except.ok o) :
    (∃ conns, (t.OpenAs s http).result = Except.ok conns ∧
       conns.length = o.body.max_conn_count.toNat) ∧
    ((t.OpenAs s http).state.URL).2 = o.body.url ∧
    (o.body.max_conn_count = 0 → (t.OpenAs s http).spawned = []) ∧
    (o.body.max_conn_count = 0 →
       ∀ d : Nat → DialResult × DialResult,
         (openAndDial t s http d).2 = []) ∧
    (∀ d d' : Nat → DialResult × DialResult,
       (openAndDial t s http d).1 = (openAndDial t s http d').1) := by
  refine ⟨?_, ?_, ?_, ?_, ?_⟩
  · simp only [Tunnel.OpenAs, Tunnel.setup, h]
    exact ⟨_, rfl, by simp [Tunnel.establish, Tunnel.MaxConn]⟩
  · simp [Tunnel.OpenAs, Tunnel.setup, h, Tunnel.URL]
  · intro hk
    simp [Tunnel.OpenAs, Tunnel.setup, h, OpenResult.spawned,
          Tunnel.establish, Tunnel.MaxConn, hk]
  · intro hk d
    simp [openAndDial, Tunnel.OpenAs, Tunnel.setup, h, Tunnel.establish,
          Tunnel.MaxConn, hk]
  · intro d d'
    unfold openAndDial
    cases ht : (t.OpenAs s http).result <;> simp

/-- Witness for C6 at the `max_conn_count = 0` scenario. -/
theorem openAs_spawns_exactly_maxConn_witness :
    httpOK0 (requestURL tun0.c.endPoint "?new")
      = Except.ok { resolvedHost := "localtunnel.me",
                    body := { id := "abc123",
                              url := "https://abc123.localtunnel.me",
                              port := 7000, max_conn_count := 0 } } ∧
    ((∃ conns, (tun0.OpenAs "?new" httpOK0).result = Except.ok conns ∧
        conns.length = (0 : Int).toNat) ∧
     ((tun0.OpenAs "?new" httpOK0).state.URL).2
        = "https://abc123.localtunnel.me" ∧
     ((0 : Int) = 0 → (tun0.OpenAs "?new" httpOK0).spawned = []) ∧
     ((0 : Int) = 0 →
        ∀ d : Nat → DialResult × DialResult,
          (openAndDial tun0 "?new" httpOK0 d).2 = []) ∧
     (∀ d d' : Nat → DialResult × DialResult,
        (openAndDial tun0 "?new" httpOK0 d).1
          = (openAndDial tun0 "?new" httpOK0 d').1)) :=
  ⟨rfl, openAs_spawns_exactly_maxConn tun0 "?new" _ httpOK0 rfl⟩

/-- Every chunk the relay forwards is nonempty and is exactly the data of
one of the stream's reads (no re-chunking). -/
theorem chanFromConn_chunk_sound (rs : List ReadResult) :
    ∀ b ∈ (chanFromConn rs).1, b ≠ [] ∧ ∃ r ∈ rs, b = r.data := by
  induction rs with
  | nil =>
      intro b hb
      simp [chanFromConn] at hb
  | cons r rs ih =>
      intro b hb
      by_cases hd : r.data.length > 0 <;>
        rcases herr : r.err with _ | e <;>
          simp [chanFromConn, herr, hd] at hb
      · rcases hb with hb | hb
        · subst hb
          exact ⟨List.length_pos.mp hd, r, List.mem_cons_self r rs, rfl⟩
        · obtain ⟨hne, q, hq, hbq⟩ := ih b hb
          exact ⟨hne, q, List.mem_cons_of_mem r hq, hbq⟩
      · subst hb
        exact ⟨List.length_pos.mp hd, r, List.mem_cons_self r rs, rfl⟩
      · obtain ⟨hne, q, hq, hbq⟩ := ih b hb
        exact ⟨hne, q, List.mem_cons_of_mem r hq, hbq⟩

/-- The relay reports at most one error. -/
theorem chanFromConn_errs_le_one (rs : List ReadResult) :
    (chanFromConn rs).2.length ≤ 1 := by
  induction rs with
  | nil => simp [chanFromConn]
  | cons r rs ih =>
      rcases herr : r.err with _ | e <;> simp [chanFromConn, herr]
      exact ih

/-- On an error-free stream the relay reports no error. -/
theorem chanFromConn_no_err (rs : List ReadResult)
    (h : ∀ r ∈ rs, r.err = none) :
    (chanFromConn rs).2 = [] := by
  induction rs with
  | nil => simp [chanFromConn]
  | cons r rs ih =>
      have hr : r.err = none := h r (List.mem_cons_self r rs)
      simp [chanFromConn, hr]
      exact ih (fun q hq => h q (List.mem_cons_of_mem r hq))

/-- After the first erroring read the relay stops: the reads after it
contribute nothing, and the reported error is exactly that first error. -/
theorem chanFromConn_stops (pre : List ReadResult) (r : ReadResult)
    (post : List ReadResult) (e : String)
    (hpre : ∀ p ∈ pre, p.err = none) (he : r.err = some e) :
    chanFromConn (pre ++ r :: post) = chanFromConn (pre ++ [r]) ∧
    (chanFromConn (pre ++ r :: post)).2 = [e] := by
  induction pre with
  | nil =>
      constructor <;> simp [chanFromConn, he]
  | cons p pre ih =>
      have hp : p.err = none := hpre p (List.mem_cons_self p pre)
      have ih' := ih (fun q hq => hpre q (List.mem_cons_of_mem p hq))
      constructor
      · simp only [List.cons_append, chanFromConn, hp, List.append_eq]
        rw [ih'.1]
      · simp only [List.cons_append, chanFromConn, hp, List.append_eq]
        exact ih'.2

/-- Claim C4: the relay reads at most `bufSize = 1024` bytes per read (its
buffer size); every forwarded chunk is nonempty, is exactly the bytes of
one successful read (boundaries preserved) and hence has length ≤ 1024;
the relay reports at most one error, none on an error-free stream, and on
the first erroring read it reports exactly that error and stops reading. -/
theorem chanFromConn_chunks_and_errors (rs : List ReadResult)
    (hbuf : ∀ r ∈ rs, r.data.length ≤ bufSize) :
    (∀ b ∈ (chanFromConn rs).1,
       b ≠ [] ∧ b.length ≤ bufSize ∧ ∃ r ∈ rs, b = r.data) ∧
    (chanFromConn rs).2.length ≤ 1 ∧
    ((∀ r ∈ rs, r.err = none) → (chanFromConn rs).2 = []) ∧
    (∀ pre r post e, rs = pre ++ r :: post →
       (∀ p ∈ pre, p.err = none) → r.err = some e →
       chanFromConn rs = chanFromConn (pre ++ [r]) ∧
       (chanFromConn rs).2 = [e]) := by
  refine ⟨?_, chanFromConn_errs_le_one rs, chanFromConn_no_err rs, ?_⟩
  · intro b hb
    obtain ⟨hne, r, hr, hbr⟩ := chanFromConn_chunk_sound rs b hb
    exact ⟨hne, hbr ▸ hbuf r hr, r, hr, hbr⟩
  · intro pre r post e hrs hpre he
    subst hrs
    exact chanFromConn_stops pre r post e hpre he

/-- A concrete read stream: a successful read, then a read delivering its
last byte together with EOF, then a read that must never happen. -/
def relayStream0 : List ReadResult :=
  [{ data := [72, 105], err := none },
   { data := [33], err := some "EOF" },
   { data := [9, 9], err := none }]

/-- Witness for C4 at `relayStream0`. -/
theorem chanFromConn_chunks_and_errors_witness :
    (∀ r ∈ relayStream0, r.data.length ≤ bufSize) ∧
    ((∀ b ∈ (chanFromConn relayStream0).1,
        b ≠ [] ∧ b.length ≤ bufSize ∧ ∃ r ∈ relayStream0, b = r.data) ∧
     (chanFromConn relayStream0).2.length ≤ 1 ∧
     ((∀ r ∈ relayStream0, r.err = none) →
        (chanFromConn relayStream0).2 = []) ∧
     (∀ pre r post e, relayStream0 = pre ++ r :: post →
        (∀ p ∈ pre, p.err = none) → r.err = some e →
        chanFromConn relayStream0 = chanFromConn (pre ++ [r]) ∧
        (chanFromConn relayStream0).2 = [e])) :=
  ⟨by decide, chanFromConn_chunks_and_errors relayStream0 (by decide)⟩

end LocalTunnel
